import Mathlib

/-!
# Verification of the live flight-tracker core

A shallow embedding of the flight-tracking repository's core logic:

* `src/src/hooks/useFlights.ts` — snapshot fetching (`fetchFlights`), the
  per-frame interpolation loop (`animate` / `interpolatePosition`), the
  kinematic cache (`lastApiDataRef`) and the per-id trail buffers
  (`trailsRef`);
* the application component (`searchResults`) — scored fuzzy search over
  flights and airports;
* `src/src/hooks/useAirports.ts` — the `Airport` record shape.

Numbers that the TypeScript source handles as IEEE doubles are modelled as
exact rationals (`ℚ`) for all data-plumbing and comparisons, and as real
numbers (`ℝ`) for the trigonometric dead-reckoning formula.  JavaScript
`null`/`undefined` fields are modelled as `Option`, and the string-falsy
`a || b` idiom is modelled by `jsOrStr`.  React state updates
(`setFlights`/`setError`/`setLoading`) are modelled by explicit state
passing over `EngineState`.
-/

/-! ## Data model -/

/-- The `Airport` interface of `useAirports.ts`.  The loader substitutes
`''` for missing string fields, so they are plain `String`s here. -/
structure Airport where
  icao : String
  iata : String
  name : String
  city : String
  country : String
  latitude : ℚ
  longitude : ℚ
deriving DecidableEq

/-- The `Flight` interface of `useFlights.ts`.  Optional (`?`) fields are
`Option`s; the interpolated display position is real-valued because it is
produced by the trigonometric dead-reckoning formula. -/
structure Flight where
  icao24 : String
  callsign : String
  origin_country : String
  longitude : ℚ
  latitude : ℚ
  altitude : ℚ
  on_ground : Bool
  velocity : ℚ
  heading : ℚ
  vertical_rate : ℚ
  trail : List (ℚ × ℚ)
  interpolatedLng : Option ℝ
  interpolatedLat : Option ℝ
  origin : Option String
  destination : Option String
  airline : Option String
  aircraft : Option String
  registration : Option String
  flight_number : Option String

/-- One entry of `lastApiDataRef.current` — the kinematic cache: last
reported position, speed (m/s), heading (degrees) and snapshot time (ms). -/
structure LastApiData where
  lng : ℚ
  lat : ℚ
  velocity : ℚ
  heading : ℚ
  timestamp : ℚ
deriving DecidableEq

/-- The raw AirLabs record shape consumed by `fetchFlights` (`data.response`
elements).  Absent/null JSON fields are `none`. -/
structure RawFlightRecord where
  hex : Option String
  reg_number : Option String
  flight_icao : Option String
  flight_iata : Option String
  lng : Option ℚ
  lat : Option ℚ
  speed : Option ℚ
  dir : Option ℚ
  alt : Option ℚ
  v_speed : Option ℚ
  status : Option String
  flag : Option String
  dep_iata : Option String
  dep_icao : Option String
  arr_iata : Option String
  arr_icao : Option String
  airline_name : Option String
  airline_iata : Option String
  aircraft_icao : Option String
  flight_number : Option String
deriving DecidableEq

/-- The mutable state owned by the `useFlights` hook: the rendered flight
list, the per-id trail map, the kinematic cache, and the
`loading`/`error` flags.  The two maps are total functions defaulting to
`[]`/`none`, matching the `Record<string, _>` objects of the source. -/
structure EngineState where
  flights : List Flight
  trails : String → List (ℚ × ℚ)
  lastApiData : String → Option LastApiData
  loading : Bool
  error : Option String

/-! ## Trail buffer (`useFlights.ts` lines 213–224) -/

/-- The epsilon test guarding the trail push: append when there is no last
point, or when the new point differs from it by more than `0.001` raw
degrees in either axis (`Math.abs(lastPoint[0] - lng) > 0.001 ||
Math.abs(lastPoint[1] - lat) > 0.001`). -/
def shouldAppendTrail (currentTrail : List (ℚ × ℚ)) (lng lat : ℚ) : Bool :=
  match currentTrail.getLast? with
  | none => true
  | some lastPoint => |lastPoint.1 - lng| > 1/1000 || |lastPoint.2 - lat| > 1/1000

/-- The trail update of one merge step: conditional `push([lng, lat])`
followed by `if (currentTrail.length > 50) currentTrail.shift()`. -/
def trailAppend (currentTrail : List (ℚ × ℚ)) (lng lat : ℚ) : List (ℚ × ℚ) :=
  if shouldAppendTrail currentTrail lng lat then
    let pushed := currentTrail ++ [(lng, lat)]
    if pushed.length > 50 then pushed.tail else pushed
  else currentTrail

/-! ## Search scoring (application component, `searchResults`) -/

/-- JavaScript `s.toLowerCase()`, realised as a character-by-character map
(the queries and fields involved are ASCII). -/
def toLowerStr (s : String) : String := String.mk (s.toList.map Char.toLower)

/-- JavaScript `s.toUpperCase()`, realised as a character-by-character map. -/
def toUpperStr (s : String) : String := String.mk (s.toList.map Char.toUpper)

/-- JavaScript `s.trim()`: strip leading and trailing whitespace. -/
def trimStr (s : String) : String :=
  String.mk (((s.toList.dropWhile Char.isWhitespace).reverse.dropWhile
    Char.isWhitespace).reverse)

/-- `listStartsWith hay needle`: JavaScript `hay.startsWith(needle)` on
character lists. -/
def listStartsWith : List Char → List Char → Bool
  | _, [] => true
  | [], _ :: _ => false
  | a :: as, b :: bs => a == b && listStartsWith as bs

/-- `listContainsSub hay needle`: JavaScript `hay.includes(needle)` —
`needle` occurs contiguously in `hay`. -/
def listContainsSub : List Char → List Char → Bool
  | [], needle => listStartsWith [] needle
  | h :: t, needle => listStartsWith (h :: t) needle || listContainsSub t needle

/-- JavaScript `s.startsWith(q)` on strings. -/
def strStartsWith (s q : String) : Bool := listStartsWith s.toList q.toList

/-- JavaScript `s.includes(q)` on strings. -/
def strContainsSub (s q : String) : Bool := listContainsSub s.toList q.toList

/-- JavaScript `x?.toLowerCase() || ''` for an optional string field. -/
def lowerOpt (s : Option String) : String := (s.map toLowerStr).getD ""

/-- The additive flight score of `searchResults` (query `q` already
lower-cased and trimmed by the caller). -/
def flightScore (q : String) (f : Flight) : ℕ :=
  let callsign := toLowerStr f.callsign
  let icao := toLowerStr f.icao24
  let airline := lowerOpt f.airline
  let country := toLowerStr f.origin_country
  let origin := lowerOpt f.origin
  let dest := lowerOpt f.destination
  (if callsign = q then 100 else 0) +
  (if icao = q then 100 else 0) +
  (if origin = q ∨ dest = q then 90 else 0) +
  (if strStartsWith callsign q then 50 else 0) +
  (if strStartsWith icao q then 50 else 0) +
  (if strStartsWith airline q then 40 else 0) +
  (if strContainsSub callsign q then 20 else 0) +
  (if strContainsSub airline q then 15 else 0) +
  (if strContainsSub country q then 10 else 0) +
  (if strContainsSub origin q ∨ strContainsSub dest q then 25 else 0)

/-- The additive airport score of `searchResults` (query `q` already
lower-cased and trimmed by the caller). -/
def airportScore (q : String) (a : Airport) : ℕ :=
  let iata := toLowerStr a.iata
  let icao := toLowerStr a.icao
  let name := toLowerStr a.name
  let city := toLowerStr a.city
  let country := toLowerStr a.country
  (if iata = q ∨ icao = q then 100 else 0) +
  (if strStartsWith iata q then 80 else 0) +
  (if strStartsWith icao q then 80 else 0) +
  (if strStartsWith name q then 60 else 0) +
  (if strStartsWith city q then 50 else 0) +
  (if strContainsSub name q then 30 else 0) +
  (if strContainsSub city q then 25 else 0) +
  (if strContainsSub country q then 15 else 0)

/-- Stable insertion of a scored item into a descending-by-score list: the
item goes in front of the first element whose score is `≤` its own, so a
later-inserted item never jumps ahead of an earlier equal-scored one. -/
def insertByScore {α : Type} (x : α × ℕ) : List (α × ℕ) → List (α × ℕ)
  | [] => [x]
  | y :: ys => if y.2 ≤ x.2 then x :: y :: ys else y :: insertByScore x ys

/-- Stable descending sort by score, modelling the ECMAScript stable
`Array.prototype.sort((a, b) => b.score - a.score)`. -/
def sortByScoreDesc {α : Type} : List (α × ℕ) → List (α × ℕ)
  | [] => []
  | x :: xs => insertByScore x (sortByScoreDesc xs)

/-- One scored-search pipeline of `searchResults`:
`.map(score).filter(score > 0).sort(desc).slice(0, 5).map(item)`. -/
def searchMatches {α : Type} (score : α → ℕ) (items : List α) : List α :=
  ((sortByScoreDesc ((items.map fun x => (x, score x)).filter
      fun p => decide (0 < p.2))).take 5).map fun p => p.1

/-- The `searchResults` memo: empty below the minimum query length, else
lower-case and trim the query and run both scored pipelines. -/
def searchResults (searchQuery : String) (flights : List Flight)
    (airports : List Airport) : List Flight × List Airport :=
  if searchQuery.length < 1 then ([], [])
  else
    let q := trimStr (toLowerStr searchQuery)
    (searchMatches (flightScore q) flights, searchMatches (airportScore q) airports)

/-! ## Interpolation (`useFlights.ts` lines 103–155) -/

/-- `interpolatePosition`: planar dead-reckoning from a kinematic anchor.
The guard `velocity === 0 || !velocity` of the source collapses to
`velocity = 0` over the reals (`!velocity` is true for a number exactly
when it is `0` or `NaN`). -/
noncomputable def interpolatePosition (startLng startLat velocity heading
    elapsedSeconds : ℝ) : ℝ × ℝ :=
  if velocity = 0 then (startLng, startLat)
  else
    let speedDegreesPerSecond := velocity / 111320
    let rad := heading * Real.pi / 180
    let deltaLng := Real.sin rad * speedDegreesPerSecond * elapsedSeconds
    let deltaLat := Real.cos rad * speedDegreesPerSecond * elapsedSeconds
    (startLng + deltaLng, startLat + deltaLat)

/-- One flight's update inside the `animate` tick: look up the kinematic
cache; if absent, or if the elapsed time exceeds the 60-second staleness
ceiling, return the flight unchanged; otherwise overwrite only the
interpolated display position. -/
noncomputable def animateFlight (lastApiData : String → Option LastApiData)
    (now : ℚ) (flight : Flight) : Flight :=
  match lastApiData flight.icao24 with
  | none => flight
  | some lastKnown =>
    let elapsedSeconds : ℚ := (now - lastKnown.timestamp) / 1000
    if elapsedSeconds > 60 then flight
    else
      let p := interpolatePosition (lastKnown.lng : ℝ) (lastKnown.lat : ℝ)
        (lastKnown.velocity : ℝ) (lastKnown.heading : ℝ) (elapsedSeconds : ℝ)
      { flight with interpolatedLng := some p.1, interpolatedLat := some p.2 }

/-- One `animate` tick: `setFlights(prev => prev.map(...))` — only the
flight list is written; the trail map, the kinematic cache and the
error/loading flags are untouched. -/
noncomputable def animate (now : ℚ) (s : EngineState) : EngineState :=
  { s with flights := s.flights.map (animateFlight s.lastApiData now) }

/-! ## Snapshot fetching (`useFlights.ts` lines 166–262) -/

/-- JavaScript `a || b` where `a` is a possibly absent string: `null`,
`undefined` and `''` are falsy. -/
def jsOrStr (a : Option String) (b : String) : String :=
  match a with
  | some s => if s = "" then b else s
  | none => b

/-- The acceptance filter and cap of one snapshot:
`data.response.filter(hasPosition && en-route).slice(0, 500)`. -/
def isUsable (f : RawFlightRecord) : Bool :=
  f.lng.isSome && f.lat.isSome && f.status == some "en-route"

/-- The records a successful fetch actually processes: upstream order,
filtered by `isUsable`, capped at the first 500. -/
def acceptedRecords (response : List RawFlightRecord) : List RawFlightRecord :=
  (response.filter isUsable).take 500

/-- The body of the `.map` over accepted records: synthesize the id
(`hex || reg_number || fallback`), write the kinematic cache entry
(knots → m/s), update the id's trail buffer, and build the `Flight`.
`fallbackId` stands for the random `FLIGHT…` string generated when both
`hex` and `reg_number` are falsy. -/
def mapRecord (fallbackId : String) (now : ℚ)
    (trails : String → List (ℚ × ℚ)) (lastApiData : String → Option LastApiData)
    (flight : RawFlightRecord) :
    (String → List (ℚ × ℚ)) × (String → Option LastApiData) × Flight :=
  let icao24 := jsOrStr flight.hex (jsOrStr flight.reg_number fallbackId)
  let callsign := jsOrStr flight.flight_icao (jsOrStr flight.flight_iata "N/A")
  let lng := flight.lng.getD 0
  let lat := flight.lat.getD 0
  let velocity := flight.speed.getD 0
  let heading := flight.dir.getD 0
  let altitude := flight.alt.getD 0
  let verticalRate := flight.v_speed.getD 0
  let lastApiData' : String → Option LastApiData := fun k =>
    if k = icao24 then
      some { lng := lng, lat := lat, velocity := velocity * (514444/1000000),
             heading := heading, timestamp := now }
    else lastApiData k
  let newTrail := trailAppend (trails icao24) lng lat
  let trails' : String → List (ℚ × ℚ) := fun k =>
    if k = icao24 then newTrail else trails k
  let airlineName := jsOrStr flight.airline_name
    (jsOrStr flight.airline_iata "Unknown Airline")
  (trails', lastApiData',
    { icao24 := icao24
      callsign := callsign
      origin_country := jsOrStr flight.flag "Unknown"
      longitude := lng
      latitude := lat
      interpolatedLng := some (lng : ℝ)
      interpolatedLat := some (lat : ℝ)
      altitude := altitude
      on_ground := false
      velocity := velocity
      heading := heading
      vertical_rate := verticalRate
      trail := newTrail
      origin := some (jsOrStr flight.dep_iata (jsOrStr flight.dep_icao "N/A"))
      destination := some (jsOrStr flight.arr_iata (jsOrStr flight.arr_icao "N/A"))
      airline := some airlineName
      aircraft := some (jsOrStr flight.aircraft_icao "Aircraft")
      registration := some (jsOrStr flight.reg_number (toUpperStr icao24))
      flight_number := some (jsOrStr flight.flight_number callsign) })

/-- The `.map` over the accepted records, threading the trail map and the
kinematic cache left to right.  `gensym i` supplies the random fallback id
for the `i`-th record. -/
def mapFlights (gensym : ℕ → String) (now : ℚ) (i : ℕ)
    (trails : String → List (ℚ × ℚ)) (lastApiData : String → Option LastApiData) :
    List RawFlightRecord →
      (String → List (ℚ × ℚ)) × (String → Option LastApiData) × List Flight
  | [] => (trails, lastApiData, [])
  | r :: rs =>
    let step := mapRecord (gensym i) now trails lastApiData r
    let rest := mapFlights gensym now (i + 1) step.1 step.2.1 rs
    (rest.1, rest.2.1, step.2.2 :: rest.2.2)

/-- The observable outcome of one fetch attempt: either the `try` block
threw before `data` was inspected (non-ok status, network failure or JSON
parse failure, with the thrown message), or a parsed body whose
`response` field is absent (`none`) or an array. -/
inductive FetchOutcome where
  | failure (msg : String)
  | success (response : Option (List RawFlightRecord))

/-- One `fetchFlights` cycle as a state transformer.  A thrown error —
including the `'No flight data available from backend'` thrown when
`!data.response || data.response.length === 0` — is caught by the single
`catch`, which sets the error message and leaves the flight list, the
trail map and the kinematic cache untouched.  A non-empty response is
filtered, capped and mapped, then replaces the flight list wholesale and
clears the error. -/
def fetchFlights (gensym : ℕ → String) (now : ℚ) (outcome : FetchOutcome)
    (st : EngineState) : EngineState :=
  match outcome with
  | .failure msg =>
    { st with error := some ("Connection issue: " ++ msg), loading := false }
  | .success response =>
    match response with
    | none =>
      { st with
          error := some "Connection issue: No flight data available from backend"
          loading := false }
    | some resp =>
      if resp.length = 0 then
        { st with
            error := some "Connection issue: No flight data available from backend"
            loading := false }
      else
        let mapped := mapFlights gensym now 0 st.trails st.lastApiData
          (acceptedRecords resp)
        { flights := mapped.2.2
          trails := mapped.1
          lastApiData := mapped.2.1
          loading := false
          error := none }

/-- The periodic fetch loop (`setInterval(fetchFlights, 45000)`): a
sequence of completed cycles applied in order. -/
def runFetchLoop (gensym : ℕ → String) (now : ℚ) (outcomes : List FetchOutcome)
    (st : EngineState) : EngineState :=
  outcomes.foldl (fun s o => fetchFlights gensym now o s) st

/-! ## Concrete instances used in examples, witnesses and counterexamples -/

/-- A reference airport with an exact IATA match for the query `"jfk"`. -/
def jfkAirport : Airport :=
  { icao := "KJFK", iata := "JFK", name := "John F Kennedy International Airport",
    city := "New York", country := "United States", latitude := 40, longitude := -73 }

/-- A reference airport whose only matches for `"jfk"` are partial
(name prefix + name substring, scoring 60 + 30 = 90). -/
def heliportAirport : Airport :=
  { icao := "NK39", iata := "", name := "JFK Medical Center Heliport",
    city := "Edison", country := "United States", latitude := 40, longitude := -74 }

/-- The first of the two example entities of the search-stability claim. -/
def baw123 : Flight :=
  { icao24 := "x1", callsign := "BAW123", origin_country := "", longitude := 0,
    latitude := 0, altitude := 0, on_ground := false, velocity := 0, heading := 0,
    vertical_rate := 0, trail := [], interpolatedLng := none, interpolatedLat := none,
    origin := none, destination := none, airline := none, aircraft := none,
    registration := none, flight_number := none }

/-- The second example entity: same score for the query `"baw"`, inserted
after `baw123`. -/
def baw456 : Flight := { baw123 with icao24 := "x2", callsign := "BAW456" }

/-- A flight already present in the store before a fetch cycle. -/
def sampleFlight : Flight := { baw123 with icao24 := "abc123", callsign := "UAL1" }

/-- A kinematic-cache anchor: position (10, 20), 100 m/s due east
(heading 90°), captured at timestamp 0 ms. -/
def anchorData : LastApiData :=
  { lng := 10, lat := 20, velocity := 100, heading := 90, timestamp := 0 }

/-- A kinematic cache holding exactly the entry for `sampleFlight`. -/
def cacheWithAnchor : String → Option LastApiData :=
  fun k => if k = "abc123" then some anchorData else none

/-- The empty kinematic cache. -/
def cacheEmpty : String → Option LastApiData := fun _ => none

/-- An engine state with a non-empty entity store. -/
def prevState : EngineState :=
  { flights := [sampleFlight], trails := fun _ => [],
    lastApiData := fun _ => none, loading := false, error := none }

/-- A raw record that fails the acceptance filter (no position, not
en-route). -/
def invalidRecord : RawFlightRecord :=
  { hex := none, reg_number := none, flight_icao := none, flight_iata := none,
    lng := none, lat := none, speed := none, dir := none, alt := none,
    v_speed := none, status := some "landed", flag := none, dep_iata := none,
    dep_icao := none, arr_iata := none, arr_icao := none, airline_name := none,
    airline_iata := none, aircraft_icao := none, flight_number := none }

/-- A raw record that passes the acceptance filter. -/
def validRecord : RawFlightRecord :=
  { invalidRecord with
    hex := some "abc123"
    lng := some 10
    lat := some 20
    speed := some 250
    dir := some 90
    status := some "en-route" }

/-- A fallback-id generator for fetch cycles in examples. -/
def gensym0 : ℕ → String := fun _ => "FLIGHT0"

/-! ## General lemmas: the scored search pipeline -/

theorem listStartsWith_self : ∀ l : List Char, listStartsWith l l = true
  | [] => rfl
  | a :: as => by simp [listStartsWith, listStartsWith_self as]

theorem strStartsWith_self (s : String) : strStartsWith s s = true :=
  listStartsWith_self s.toList

theorem mem_insertByScore {α : Type} {z x : α × ℕ} :
    ∀ {l : List (α × ℕ)}, z ∈ insertByScore x l → z = x ∨ z ∈ l := by
  intro l
  induction l with
  | nil => intro h; simp [insertByScore] at h; exact Or.inl h
  | cons y ys ih =>
    intro h
    by_cases hc : y.2 ≤ x.2
    · simp only [insertByScore, if_pos hc, List.mem_cons] at h
      rcases h with h | h | h
      · exact Or.inl h
      · exact Or.inr (by simp [h])
      · exact Or.inr (by simp [h])
    · simp only [insertByScore, if_neg hc, List.mem_cons] at h
      rcases h with h | h
      · exact Or.inr (by simp [h])
      · rcases ih h with h' | h'
        · exact Or.inl h'
        · exact Or.inr (by simp [h'])

/-- Stable insertion keeps the list sorted by descending score. -/
theorem pairwise_insertByScore {α : Type} (x : α × ℕ) :
    ∀ l : List (α × ℕ), l.Pairwise (fun a b => b.2 ≤ a.2) →
      (insertByScore x l).Pairwise (fun a b => b.2 ≤ a.2) := by
  intro l
  induction l with
  | nil => intro _; simp [insertByScore]
  | cons y ys ih =>
    intro h
    rw [List.pairwise_cons] at h
    by_cases hc : y.2 ≤ x.2
    · simp only [insertByScore, if_pos hc]
      refine List.Pairwise.cons ?_ (List.Pairwise.cons h.1 h.2)
      intro z hz
      rcases List.mem_cons.mp hz with rfl | hz'
      · exact hc
      · exact le_trans (h.1 z hz') hc
    · simp only [insertByScore, if_neg hc]
      refine List.Pairwise.cons ?_ (ih h.2)
      intro z hz
      rcases mem_insertByScore hz with rfl | hz'
      · exact Nat.le_of_lt (Nat.lt_of_not_le hc)
      · exact h.1 z hz'

theorem pairwise_sortByScoreDesc {α : Type} :
    ∀ l : List (α × ℕ), (sortByScoreDesc l).Pairwise (fun a b => b.2 ≤ a.2)
  | [] => by simp [sortByScoreDesc]
  | x :: xs => pairwise_insertByScore x _ (pairwise_sortByScoreDesc xs)

theorem mem_sortByScoreDesc {α : Type} {z : α × ℕ} :
    ∀ {l : List (α × ℕ)}, z ∈ sortByScoreDesc l → z ∈ l := by
  intro l
  induction l with
  | nil => intro h; simp [sortByScoreDesc] at h
  | cons y ys ih =>
    intro h
    rcases mem_insertByScore h with h' | h'
    · exact h' ▸ List.mem_cons_self y ys
    · exact List.mem_cons_of_mem y (ih h')

/-- Stability of the insertion step, in filter form: the items of any fixed
score appear in the same order before and after inserting `x`, with `x` in
front of the later equal-scored ones. -/
theorem filter_insertByScore {α : Type} (x : α × ℕ) (s : ℕ) :
    ∀ l : List (α × ℕ),
      (insertByScore x l).filter (fun p => p.2 == s) =
        (x :: l).filter (fun p => p.2 == s)
  | [] => rfl
  | y :: ys => by
    by_cases hc : y.2 ≤ x.2
    · simp only [insertByScore, if_pos hc]
    · have ih := filter_insertByScore x s ys
      have hygt : x.2 < y.2 := Nat.lt_of_not_le hc
      simp only [insertByScore, if_neg hc]
      by_cases hx : x.2 = s
      · have hyP : (y.2 == s) = false := by
          simp only [beq_eq_false_iff_ne, ne_eq]; omega
        have hxP : (x.2 == s) = true := by
          simp only [beq_iff_eq]; exact hx
        simp only [List.filter_cons, ih, hxP, hyP]
        simp
      · have hxP : (x.2 == s) = false := by
          simp only [beq_eq_false_iff_ne, ne_eq]; exact hx
        simp only [List.filter_cons, ih, hxP]
        simp

/-- Stability of the whole sort, in filter form: restricted to any single
score value, the sorted list is exactly the input list in input order. -/
theorem filter_sortByScoreDesc {α : Type} (s : ℕ) :
    ∀ l : List (α × ℕ),
      (sortByScoreDesc l).filter (fun p => p.2 == s) =
        l.filter (fun p => p.2 == s)
  | [] => rfl
  | x :: xs => by
    rw [sortByScoreDesc, filter_insertByScore, List.filter_cons,
      filter_sortByScoreDesc s xs, List.filter_cons]

/-- Every search result list is ordered by non-increasing score. -/
theorem pairwise_searchMatches {α : Type} (score : α → ℕ) (items : List α) :
    (searchMatches score items).Pairwise (fun a b => score b ≤ score a) := by
  have hsorted := pairwise_sortByScoreDesc
    ((items.map fun x => (x, score x)).filter fun p => decide (0 < p.2))
  have htake : (((sortByScoreDesc ((items.map fun x => (x, score x)).filter
      fun p => decide (0 < p.2))).take 5)).Pairwise (fun a b : α × ℕ => b.2 ≤ a.2) :=
    List.Pairwise.sublist (List.take_sublist _ _) hsorted
  have hmem : ∀ p ∈ (sortByScoreDesc ((items.map fun x => (x, score x)).filter
      fun p => decide (0 < p.2))).take 5, p.2 = score p.1 := by
    intro p hp
    have hp1 := mem_sortByScoreDesc (List.take_subset _ _ hp)
    have hp2 := List.mem_of_mem_filter hp1
    rcases List.mem_map.mp hp2 with ⟨x, _, rfl⟩
    rfl
  rw [searchMatches, List.pairwise_map]
  exact htake.imp_of_mem (fun ha hb h => by
    rename_i a b
    rw [← hmem a ha, ← hmem b hb]; exact h)

theorem pairwise_searchResults_airports (q : String) (fl : List Flight)
    (as : List Airport) :
    ((searchResults q fl as).2).Pairwise
      (fun x y => airportScore (trimStr (toLowerStr q)) y ≤
        airportScore (trimStr (toLowerStr q)) x) := by
  rw [searchResults]
  by_cases h : q.length < 1
  · simp [h]
  · simp only [h, if_neg, ite_false]
    exact pairwise_searchMatches _ _

theorem pairwise_searchResults_flights (q : String) (fl : List Flight)
    (as : List Airport) :
    ((searchResults q fl as).1).Pairwise
      (fun x y => flightScore (trimStr (toLowerStr q)) y ≤
        flightScore (trimStr (toLowerStr q)) x) := by
  rw [searchResults]
  by_cases h : q.length < 1
  · simp [h]
  · simp only [h, if_neg, ite_false]
    exact pairwise_searchMatches _ _

theorem searchMatches_length_le {α : Type} (score : α → ℕ) (items : List α) :
    (searchMatches score items).length ≤ 5 := by
  rw [searchMatches, List.length_map]
  exact le_trans (List.length_take_le _ _) (le_refl 5)

/-- A query equal to the lower-cased IATA (or ICAO) code triggers both the
exact-match branch (+100) and the corresponding prefix branch (+80), so the
total additive score is at least 180 — not exactly 100. -/
theorem airportScore_exact_ge (q : String) (a : Airport)
    (h : toLowerStr a.iata = q ∨ toLowerStr a.icao = q) : 180 ≤ airportScore q a := by
  rcases h with h | h
  · rw [airportScore]
    rw [if_pos (Or.inl h), ← h, if_pos (strStartsWith_self _)]
    omega
  · rw [airportScore]
    rw [if_pos (Or.inr h)]
    rw [show strStartsWith (toLowerStr a.icao) q = true from h ▸ strStartsWith_self _]
    simp only [if_true]
    omega

/-! ## General lemmas: trail buffer, merge, interpolation -/

theorem trailAppend_length_le (buf : List (ℚ × ℚ)) (lng lat : ℚ)
    (h : buf.length ≤ 50) : (trailAppend buf lng lat).length ≤ 50 := by
  rw [trailAppend]
  by_cases hs : shouldAppendTrail buf lng lat
  · simp only [hs, if_true]
    by_cases hl : (buf ++ [(lng, lat)]).length > 50
    · rw [if_pos hl]
      rw [List.length_tail, List.length_append]
      simp; omega
    · rw [if_neg hl]
      rw [List.length_append] at hl ⊢
      simp at hl ⊢; omega
  · simp only [hs]
    simpa using h

theorem trailFoldl_length_le (ps : List (ℚ × ℚ)) :
    ∀ acc : List (ℚ × ℚ), acc.length ≤ 50 →
      (ps.foldl (fun b p => trailAppend b p.1 p.2) acc).length ≤ 50 := by
  induction ps with
  | nil => intro acc h; simpa using h
  | cons p ps ih =>
    intro acc h
    simp only [List.foldl_cons]
    exact ih _ (trailAppend_length_le acc p.1 p.2 h)

/-- At the 50-point cap, an accepted push evicts exactly the front point. -/
theorem trailAppend_evict (buf : List (ℚ × ℚ)) (lng lat : ℚ)
    (hlen : buf.length = 50) (hs : shouldAppendTrail buf lng lat = true) :
    trailAppend buf lng lat = buf.tail ++ [(lng, lat)] := by
  rw [trailAppend]
  simp only [hs, if_true]
  have hgt : (buf ++ [(lng, lat)]).length > 50 := by
    rw [List.length_append]; simp; omega
  rw [if_pos hgt]
  cases buf with
  | nil => simp at hlen
  | cons x xs => simp

/-- A new point within `0.001` of the last one, on both axes, is skipped. -/
theorem trailAppend_skip (buf : List (ℚ × ℚ)) (lng lat : ℚ) (lp : ℚ × ℚ)
    (hlast : buf.getLast? = some lp)
    (hnear : ¬(|lp.1 - lng| > 1/1000 ∨ |lp.2 - lat| > 1/1000)) :
    trailAppend buf lng lat = buf := by
  have hs : shouldAppendTrail buf lng lat = false := by
    rw [shouldAppendTrail, hlast]
    push_neg at hnear
    simp only [Bool.or_eq_false_iff, decide_eq_false_iff_not, not_lt]
    exact hnear
  rw [trailAppend, hs]
  simp

theorem trailAppend_empty (lng lat : ℚ) : trailAppend [] lng lat = [(lng, lat)] := by
  rw [trailAppend]
  rfl

/-- A point far enough from the last one (on either axis) is pushed at the
back, with no eviction below the cap. -/
theorem trailAppend_push (buf : List (ℚ × ℚ)) (lng lat : ℚ) (lp : ℚ × ℚ)
    (hlast : buf.getLast? = some lp)
    (hfar : |lp.1 - lng| > 1/1000 ∨ |lp.2 - lat| > 1/1000)
    (hlen : buf.length < 50) :
    trailAppend buf lng lat = buf ++ [(lng, lat)] := by
  have hs : shouldAppendTrail buf lng lat = true := by
    rw [shouldAppendTrail, hlast]
    simp only [Bool.or_eq_true, decide_eq_true_eq]
    exact hfar
  rw [trailAppend, hs]
  simp only [if_true]
  rw [if_neg]
  rw [List.length_append]
  simp
  omega

theorem trail_example_1 : trailAppend [] 10 20 = [((10:ℚ), (20:ℚ))] :=
  trailAppend_empty 10 20

theorem trail_example_2 :
    trailAppend [((10:ℚ), (20:ℚ))] 10.0001 20.0001 = [((10:ℚ), (20:ℚ))] := by
  refine trailAppend_skip [((10:ℚ), (20:ℚ))] 10.0001 20.0001 (10, 20) rfl ?_
  push_neg
  constructor <;> norm_num [abs_le]

theorem trail_example_3 :
    trailAppend [((10:ℚ), (20:ℚ))] 10.01 20.01 =
      [((10:ℚ), (20:ℚ)), ((10.01:ℚ), (20.01:ℚ))] := by
  refine trailAppend_push [((10:ℚ), (20:ℚ))] 10.01 20.01 (10, 20) rfl ?_ ?_
  · left; norm_num [lt_abs]
  · norm_num

theorem mapFlights_length (g : ℕ → String) (now : ℚ) :
    ∀ (rs : List RawFlightRecord) (i : ℕ) (tr : String → List (ℚ × ℚ))
      (c : String → Option LastApiData),
      ((mapFlights g now i tr c rs).2.2).length = rs.length
  | [], _, _, _ => rfl
  | r :: rs, i, tr, c => by
    simp only [mapFlights, List.length_cons]
    rw [mapFlights_length g now rs]

theorem animateFlight_no_cache (cache : String → Option LastApiData) (now : ℚ)
    (f : Flight) (hc : cache f.icao24 = none) : animateFlight cache now f = f := by
  simp only [animateFlight, hc]

theorem animateFlight_stale (cache : String → Option LastApiData) (now : ℚ)
    (f : Flight) (e : LastApiData) (hc : cache f.icao24 = some e)
    (h : (now - e.timestamp) / 1000 > 60) : animateFlight cache now f = f := by
  simp only [animateFlight, hc]
  rw [if_pos h]

theorem animateFlight_fresh (cache : String → Option LastApiData) (now : ℚ)
    (f : Flight) (e : LastApiData) (hc : cache f.icao24 = some e)
    (h : ¬((now - e.timestamp) / 1000 > 60)) :
    animateFlight cache now f =
      { f with
        interpolatedLng := some (interpolatePosition (e.lng : ℝ) (e.lat : ℝ)
          (e.velocity : ℝ) (e.heading : ℝ) (((now - e.timestamp) / 1000 : ℚ) : ℝ)).1
        interpolatedLat := some (interpolatePosition (e.lng : ℝ) (e.lat : ℝ)
          (e.velocity : ℝ) (e.heading : ℝ) (((now - e.timestamp) / 1000 : ℚ) : ℝ)).2 } := by
  simp only [animateFlight, hc]
  rw [if_neg h]

theorem interpolatePosition_zero_speed (lng lat h e : ℝ) :
    interpolatePosition lng lat 0 h e = (lng, lat) := by
  rw [interpolatePosition]
  simp

theorem interpolatePosition_formula (lng lat v h e : ℝ) (hv : v ≠ 0) :
    interpolatePosition lng lat v h e =
      (lng + Real.sin (h * Real.pi / 180) * (v / 111320) * e,
       lat + Real.cos (h * Real.pi / 180) * (v / 111320) * e) := by
  rw [interpolatePosition, if_neg hv]

/-! ## The claims -/

/-- Claim C1 (amended): a fetch cycle whose parsed body has a missing or
empty raw `response` array leaves the flight list, the trail map and the
kinematic cache untouched and raises the "no data" error condition.  (The
unamended claim spoke of snapshots with zero *valid* records; see the
counterexample: a non-empty raw array whose records all fail validation
instead clears the store and clears the error.) -/
theorem claim_C1 (g : ℕ → String) (now : ℚ) (st : EngineState)
    (resp : Option (List RawFlightRecord)) (_hne : st.flights ≠ [])
    (hresp : resp = none ∨ resp = some []) :
    (fetchFlights g now (.success resp) st).flights = st.flights ∧
    (fetchFlights g now (.success resp) st).trails = st.trails ∧
    (fetchFlights g now (.success resp) st).lastApiData = st.lastApiData ∧
    (fetchFlights g now (.success resp) st).error =
      some "Connection issue: No flight data available from backend" := by
  rcases hresp with rfl | rfl
  · exact ⟨rfl, rfl, rfl, rfl⟩
  · refine ⟨?_, ?_, ?_, ?_⟩ <;> simp [fetchFlights]

/-- Claim C1, counterexample to the unamended statement: a snapshot whose
single raw record fails validation (`isUsable` is false, so the snapshot
contains zero valid records) is *not* treated as the "no data" error: with
a previously non-empty store, the fetch replaces the store with the empty
list and clears the error instead of preserving the store. -/
theorem claim_C1_cex :
    isUsable invalidRecord = false ∧
    prevState.flights ≠ [] ∧
    (fetchFlights gensym0 0 (.success (some [invalidRecord])) prevState).flights
      = [] ∧
    (fetchFlights gensym0 0 (.success (some [invalidRecord])) prevState).error
      = none := by
  refine ⟨rfl, ?_, rfl, rfl⟩
  simp [prevState]

/-- Claim C1, witness: the amended theorem applied to a concrete non-empty
store and an empty raw response array. -/
theorem claim_C1_witness :
    (fetchFlights gensym0 0 (.success (some [])) prevState).flights =
      prevState.flights ∧
    (fetchFlights gensym0 0 (.success (some [])) prevState).error =
      some "Connection issue: No flight data available from backend" := by
  have h := claim_C1 gensym0 0 prevState (some []) (by simp [prevState]) (Or.inr rfl)
  exact ⟨h.1, h.2.2.2⟩

/-- Claim C2: on a tick with a cache entry and elapsed ≤ 60 s, zero cached
speed leaves the displayed position at the cached anchor for every heading
and elapsed time; nonzero speed gives exactly
`anchor + (sin/cos)(heading·π/180) · (speed/111320) · elapsed`; and at
elapsed = 0 the displayed position equals the reported anchor position. -/
theorem claim_C2 (cache : String → Option LastApiData) (now : ℚ) (f : Flight)
    (e : LastApiData) (hc : cache f.icao24 = some e)
    (hel : (now - e.timestamp) / 1000 ≤ 60) :
    (e.velocity = 0 →
      (animateFlight cache now f).interpolatedLng = some (e.lng : ℝ) ∧
      (animateFlight cache now f).interpolatedLat = some (e.lat : ℝ)) ∧
    (e.velocity ≠ 0 →
      (animateFlight cache now f).interpolatedLng =
        some ((e.lng : ℝ) + Real.sin ((e.heading : ℝ) * Real.pi / 180) *
          ((e.velocity : ℝ) / 111320) * (((now - e.timestamp) / 1000 : ℚ) : ℝ)) ∧
      (animateFlight cache now f).interpolatedLat =
        some ((e.lat : ℝ) + Real.cos ((e.heading : ℝ) * Real.pi / 180) *
          ((e.velocity : ℝ) / 111320) * (((now - e.timestamp) / 1000 : ℚ) : ℝ))) ∧
    (now = e.timestamp →
      (animateFlight cache now f).interpolatedLng = some (e.lng : ℝ) ∧
      (animateFlight cache now f).interpolatedLat = some (e.lat : ℝ)) := by
  have hfresh := animateFlight_fresh cache now f e hc (not_lt.mpr hel)
  refine ⟨?_, ?_, ?_⟩
  · intro hv
    rw [hfresh]
    have : (e.velocity : ℝ) = 0 := by exact_mod_cast congrArg (Rat.cast : ℚ → ℝ) hv
    rw [this, interpolatePosition_zero_speed]
    exact ⟨rfl, rfl⟩
  · intro hv
    rw [hfresh]
    have hv' : (e.velocity : ℝ) ≠ 0 := by
      simpa using (Rat.cast_ne_zero (α := ℝ)).mpr hv
    rw [interpolatePosition_formula _ _ _ _ _ hv']
    exact ⟨rfl, rfl⟩
  · intro hnow
    rw [hfresh]
    have hz : (((now - e.timestamp) / 1000 : ℚ) : ℝ) = 0 := by
      rw [hnow]; simp
    rcases eq_or_ne e.velocity 0 with hv | hv
    · have : (e.velocity : ℝ) = 0 := by exact_mod_cast congrArg (Rat.cast : ℚ → ℝ) hv
      rw [this, interpolatePosition_zero_speed]
      exact ⟨rfl, rfl⟩
    · have hv' : (e.velocity : ℝ) ≠ 0 := by
        simpa using (Rat.cast_ne_zero (α := ℝ)).mpr hv
      rw [interpolatePosition_formula _ _ _ _ _ hv', hz]
      simp

/-- Claim C2, witness: the formula conjunct evaluated at the concrete
anchor (position (10, 20), 100 m/s, heading 90°, snapshot time 0) one
second after the snapshot. -/
theorem claim_C2_witness :
    (animateFlight cacheWithAnchor 1000 sampleFlight).interpolatedLng =
      some ((anchorData.lng : ℝ) +
        Real.sin ((anchorData.heading : ℝ) * Real.pi / 180) *
        ((anchorData.velocity : ℝ) / 111320) *
        ((((1000:ℚ) - anchorData.timestamp) / 1000 : ℚ) : ℝ)) ∧
    (animateFlight cacheWithAnchor 1000 sampleFlight).interpolatedLat =
      some ((anchorData.lat : ℝ) +
        Real.cos ((anchorData.heading : ℝ) * Real.pi / 180) *
        ((anchorData.velocity : ℝ) / 111320) *
        ((((1000:ℚ) - anchorData.timestamp) / 1000 : ℚ) : ℝ)) :=
  (claim_C2 cacheWithAnchor 1000 sampleFlight anchorData rfl
    (by norm_num [anchorData])).2.1 (by norm_num [anchorData])

/-- Claim C3: once the elapsed time since a flight's kinematic snapshot
exceeds the 60-second staleness ceiling, a tick returns the flight record
unchanged — and so does every tick at any later wall-clock time. -/
theorem claim_C3 (cache : String → Option LastApiData) (now nowLater : ℚ)
    (f : Flight) (e : LastApiData) (hc : cache f.icao24 = some e)
    (h : (now - e.timestamp) / 1000 > 60) (hle : now ≤ nowLater) :
    animateFlight cache now f = f ∧ animateFlight cache nowLater f = f := by
  refine ⟨animateFlight_stale cache now f e hc h, ?_⟩
  refine animateFlight_stale cache nowLater f e hc ?_
  have : (now - e.timestamp) / 1000 ≤ (nowLater - e.timestamp) / 1000 := by
    apply div_le_div_of_nonneg_right ?_ ?_
    · linarith
    · norm_num
  linarith

/-- Claim C3, witness: the stale branch at 100 s and 200 s after the
concrete anchor's snapshot. -/
theorem claim_C3_witness :
    animateFlight cacheWithAnchor 100000 sampleFlight = sampleFlight ∧
    animateFlight cacheWithAnchor 200000 sampleFlight = sampleFlight :=
  claim_C3 cacheWithAnchor 100000 200000 sampleFlight anchorData rfl
    (by norm_num [anchorData]) (by norm_num)

/-- Claim C4: a fetch cycle ending in a transport or parse failure (non-ok
status, network error, or JSON error — every throw before the data is
processed) leaves the flight list, trails and kinematic cache untouched,
surfaces the error message to consumers, and the periodic loop simply
continues with the remaining scheduled cycles: the failure is never fatal
to the loop. -/
theorem claim_C4 (g : ℕ → String) (now : ℚ) (msg : String) (st : EngineState)
    (rest : List FetchOutcome) :
    (fetchFlights g now (.failure msg) st).flights = st.flights ∧
    (fetchFlights g now (.failure msg) st).trails = st.trails ∧
    (fetchFlights g now (.failure msg) st).lastApiData = st.lastApiData ∧
    (fetchFlights g now (.failure msg) st).error =
      some ("Connection issue: " ++ msg) ∧
    runFetchLoop g now (.failure msg :: rest) st =
      runFetchLoop g now rest (fetchFlights g now (.failure msg) st) :=
  ⟨rfl, rfl, rfl, rfl, rfl⟩

/-- Claim C5 (amended): the merge's trail append adds the point only if no
prior point exists for the id or the new point differs from the last
stored point by more than 0.001 degrees *in at least one axis*
(`|Δlng| > 0.001 ∨ |Δlat| > 0.001`, i.e. Chebyshev rather than Euclidean
distance); a point within 0.001 of the last point on both axes is a no-op.
The claim's examples hold: (10, 20) then (10.0001, 20.0001) gives length 1,
then (10.01, 20.01) gives length 2.  (See the counterexample for the
Euclidean-distance reading.) -/
theorem claim_C5 :
    (∀ (buf : List (ℚ × ℚ)) (lng lat : ℚ) (lp : ℚ × ℚ),
      buf.getLast? = some lp →
      ¬(|lp.1 - lng| > 1/1000 ∨ |lp.2 - lat| > 1/1000) →
      trailAppend buf lng lat = buf) ∧
    (∀ lng lat : ℚ, trailAppend [] lng lat = [(lng, lat)]) ∧
    (∀ (buf : List (ℚ × ℚ)) (lng lat : ℚ) (lp : ℚ × ℚ),
      buf.getLast? = some lp →
      (|lp.1 - lng| > 1/1000 ∨ |lp.2 - lat| > 1/1000) →
      buf.length < 50 →
      trailAppend buf lng lat = buf ++ [(lng, lat)]) ∧
    (trailAppend [] 10 20).length = 1 ∧
    (trailAppend (trailAppend [] 10 20) 10.0001 20.0001).length = 1 ∧
    (trailAppend (trailAppend (trailAppend [] 10 20) 10.0001 20.0001) 10.01
      20.01).length = 2 := by
  refine ⟨trailAppend_skip, trailAppend_empty, trailAppend_push, ?_, ?_, ?_⟩
  · rw [trail_example_1]; rfl
  · rw [trail_example_1, trail_example_2]; rfl
  · rw [trail_example_1, trail_example_2, trail_example_3]; rfl

/-- Claim C5, counterexample to the Euclidean reading: the step from
(0, 0) to (0.0008, 0.0008) has squared Euclidean distance
`2·0.0008² = 1.28·10⁻⁶ > 0.001²`, so under the claimed Euclidean-distance
rule it would be appended — but the code skips it, because neither axis
alone moves by more than 0.001. -/
theorem claim_C5_cex :
    ((0.0008 : ℚ) - 0)^2 + ((0.0008 : ℚ) - 0)^2 > ((0.001 : ℚ))^2 ∧
    trailAppend [((0:ℚ), (0:ℚ))] 0.0008 0.0008 = [((0:ℚ), (0:ℚ))] := by
  constructor
  · norm_num
  · refine trailAppend_skip [((0:ℚ), (0:ℚ))] 0.0008 0.0008 (0, 0) rfl ?_
    push_neg
    constructor <;> norm_num [abs_le]

/-- Claim C5, witness: the no-op conjunct applied at the claim's own
near-duplicate example point. -/
theorem claim_C5_witness :
    trailAppend [((10:ℚ), (20:ℚ))] 10.0001 20.0001 = [((10:ℚ), (20:ℚ))] :=
  claim_C5.1 [((10:ℚ), (20:ℚ))] 10.0001 20.0001 (10, 20) rfl
    (by push_neg; constructor <;> norm_num [abs_le])

/-- Claim C6 (amended): a query equal (case-insensitively) to a record's
IATA or ICAO code gives that record at least 180 points — the exact-match
weight 100 *plus* the prefix weight 80, which an exact match necessarily
also triggers — not exactly 100; result lists are ordered by
non-increasing score, so such a record is ranked ahead of lower-scoring
partial matches.  For the query "JFK" the exact-match airport scores 180,
the partial (name) match scores 90, and the exact match is ranked first
even though it was inserted after the partial match. -/
theorem claim_C6 :
    (∀ (q : String) (a : Airport),
      (toLowerStr a.iata = q ∨ toLowerStr a.icao = q) → 180 ≤ airportScore q a) ∧
    (∀ (q : String) (fl : List Flight) (as : List Airport),
      ((searchResults q fl as).2).Pairwise
        (fun x y => airportScore (trimStr (toLowerStr q)) y ≤
          airportScore (trimStr (toLowerStr q)) x)) ∧
    airportScore "jfk" jfkAirport = 180 ∧
    airportScore "jfk" heliportAirport = 90 ∧
    (searchResults "JFK" [] [heliportAirport, jfkAirport]).2 =
      [jfkAirport, heliportAirport] :=
  ⟨airportScore_exact_ge, pairwise_searchResults_airports, by decide, by decide,
   by decide⟩

/-- Claim C6, counterexample to "scores that record 100": the exact IATA
match "jfk" scores the JFK airport 180 (100 exact + 80 prefix), not 100. -/
theorem claim_C6_cex :
    airportScore "jfk" jfkAirport = 180 ∧ airportScore "jfk" jfkAirport ≠ 100 := by
  decide

/-- Claim C6, witness: the lower-bound conjunct at the concrete exact
match. -/
theorem claim_C6_witness : 180 ≤ airportScore "jfk" jfkAirport :=
  claim_C6.1 "jfk" jfkAirport (Or.inl (by decide))

/-- Claim C7 (amended): search ranking is deterministic and order-stable —
restricted to any one score value the sorted list equals the input list in
insertion order, results are ordered by non-increasing score, and both
result lists are truncated to at most 5 entries.  For the entities
`BAW123`, `BAW456` and the query "baw" both score 70 — the prefix weight
50 *plus* the substring weight 20, which a prefix match necessarily also
triggers, not 50 alone — and they appear in insertion order.  (See the
counterexample for the "score 50" reading.) -/
theorem claim_C7 :
    (∀ (l : List (Flight × ℕ)) (s : ℕ),
      (sortByScoreDesc l).filter (fun p => p.2 == s) =
        l.filter (fun p => p.2 == s)) ∧
    (∀ (q : String) (fl : List Flight) (as : List Airport),
      ((searchResults q fl as).1).Pairwise
        (fun x y => flightScore (trimStr (toLowerStr q)) y ≤
          flightScore (trimStr (toLowerStr q)) x)) ∧
    (∀ (q : String) (fl : List Flight) (as : List Airport),
      ((searchResults q fl as).1).length ≤ 5 ∧
      ((searchResults q fl as).2).length ≤ 5) ∧
    flightScore "baw" baw123 = 70 ∧
    flightScore "baw" baw456 = 70 ∧
    (searchResults "baw" [baw123, baw456] []).1.map (fun f => f.callsign) =
      ["BAW123", "BAW456"] := by
  refine ⟨fun l s => filter_sortByScoreDesc s l, pairwise_searchResults_flights,
    ?_, by decide, by decide, by decide⟩
  intro q fl as
  rw [searchResults]
  by_cases h : q.length < 1
  · simp [h]
  · simp only [h, if_false]
    exact ⟨searchMatches_length_le _ _, searchMatches_length_le _ _⟩

/-- Claim C7, counterexample to "both score ... 50": the query "baw"
scores `BAW123` 70 (prefix 50 + substring 20), not 50. -/
theorem claim_C7_cex :
    flightScore "baw" baw123 = 70 ∧ flightScore "baw" baw123 ≠ 50 := by
  decide

/-- Claim C8: a trail buffer never exceeds 50 points — any sequence of
appends starting from the empty buffer stays within the cap — and an
accepted append at the cap evicts exactly the oldest (front) point,
keeping the remaining points in insertion order. -/
theorem claim_C8 :
    (∀ (buf : List (ℚ × ℚ)) (lng lat : ℚ), buf.length ≤ 50 →
      (trailAppend buf lng lat).length ≤ 50) ∧
    (∀ ps : List (ℚ × ℚ),
      ((ps.foldl (fun b p => trailAppend b p.1 p.2) []).length ≤ 50)) ∧
    (∀ (buf : List (ℚ × ℚ)) (lng lat : ℚ), buf.length = 50 →
      shouldAppendTrail buf lng lat = true →
      trailAppend buf lng lat = buf.tail ++ [(lng, lat)]) :=
  ⟨trailAppend_length_le, fun ps => trailFoldl_length_le ps [] (by simp),
   trailAppend_evict⟩

/-- Claim C8, witness: the eviction conjunct at a concrete 50-point buffer
of the origin point, appending (1, 1). -/
theorem claim_C8_witness :
    trailAppend (List.replicate 50 ((0:ℚ), (0:ℚ))) 1 1 =
      (List.replicate 50 ((0:ℚ), (0:ℚ))).tail ++ [((1:ℚ), (1:ℚ))] := by
  have hlast : (List.replicate 50 ((0:ℚ), (0:ℚ))).getLast? = some (0, 0) := by
    rw [show (50:ℕ) = 49 + 1 from rfl, List.replicate_succ', List.getLast?_concat]
  refine claim_C8.2.2 (List.replicate 50 ((0:ℚ), (0:ℚ))) 1 1 (by simp) ?_
  rw [shouldAppendTrail, hlast]
  simp only [Bool.or_eq_true, decide_eq_true_eq]
  left
  norm_num [lt_abs]

/-- Claim C9: the accepted set of a successful fetch is exactly the raw
records with a non-null position that pass the en-route status check,
taken in upstream arrival order (a sublist of the response — no
resorting) and capped at the first 500; the mapped flight list processes
exactly this accepted set. -/
theorem claim_C9 (resp : List RawFlightRecord) :
    List.Sublist (acceptedRecords resp) resp ∧
    (∀ r ∈ acceptedRecords resp, isUsable r = true) ∧
    (acceptedRecords resp).length = min 500 (resp.filter isUsable).length ∧
    ((resp.filter isUsable).length ≤ 500 →
      acceptedRecords resp = resp.filter isUsable) ∧
    (∀ i : ℕ, i < 500 →
      (acceptedRecords resp)[i]? = (resp.filter isUsable)[i]?) ∧
    (∀ (g : ℕ → String) (now : ℚ) (i : ℕ) (tr : String → List (ℚ × ℚ))
      (c : String → Option LastApiData),
      ((mapFlights g now i tr c (acceptedRecords resp)).2.2).length =
        (acceptedRecords resp).length) := by
  refine ⟨?_, ?_, ?_, ?_, ?_, ?_⟩
  · exact (List.take_sublist _ _).trans (List.filter_sublist _)
  · intro r hr
    exact List.of_mem_filter (List.take_subset _ _ hr)
  · exact List.length_take _ _
  · intro h
    exact List.take_of_length_le h
  · intro i hi
    exact List.getElem?_take_of_lt hi
  · intro g now i tr c
    exact mapFlights_length g now _ i tr c

/-- Claim C9, witness: a concrete two-record response in which only the
first record is usable. -/
theorem claim_C9_witness :
    acceptedRecords [validRecord, invalidRecord] =
      [validRecord, invalidRecord].filter isUsable ∧
    isUsable validRecord = true ∧ isUsable invalidRecord = false := by
  refine ⟨?_, rfl, rfl⟩
  exact (claim_C9 [validRecord, invalidRecord]).2.2.2.1 (by decide)

/-- Claim C10: an interpolator tick writes only the interpolated display
position: every other field of every flight record — including the
reported longitude and latitude — is unchanged, the tick never touches the
kinematic cache or the trail map, and a flight with no cache entry is
returned entirely unchanged. -/
theorem claim_C10 (cache : String → Option LastApiData) (now : ℚ) (f : Flight)
    (s : EngineState) :
    ((animateFlight cache now f).icao24 = f.icao24 ∧
     (animateFlight cache now f).callsign = f.callsign ∧
     (animateFlight cache now f).origin_country = f.origin_country ∧
     (animateFlight cache now f).longitude = f.longitude ∧
     (animateFlight cache now f).latitude = f.latitude ∧
     (animateFlight cache now f).altitude = f.altitude ∧
     (animateFlight cache now f).on_ground = f.on_ground ∧
     (animateFlight cache now f).velocity = f.velocity ∧
     (animateFlight cache now f).heading = f.heading ∧
     (animateFlight cache now f).vertical_rate = f.vertical_rate ∧
     (animateFlight cache now f).trail = f.trail ∧
     (animateFlight cache now f).origin = f.origin ∧
     (animateFlight cache now f).destination = f.destination ∧
     (animateFlight cache now f).airline = f.airline ∧
     (animateFlight cache now f).aircraft = f.aircraft ∧
     (animateFlight cache now f).registration = f.registration ∧
     (animateFlight cache now f).flight_number = f.flight_number) ∧
    (cache f.icao24 = none → animateFlight cache now f = f) ∧
    (animate now s).lastApiData = s.lastApiData ∧
    (animate now s).trails = s.trails ∧
    (animate now s).error = s.error ∧
    (animate now s).loading = s.loading ∧
    (animate now s).flights = s.flights.map (animateFlight s.lastApiData now) := by
  refine ⟨?_, fun hc => animateFlight_no_cache cache now f hc, rfl, rfl, rfl, rfl, rfl⟩
  cases hc : cache f.icao24 with
  | none => rw [animateFlight_no_cache cache now f hc]; exact ⟨rfl, rfl, rfl, rfl, rfl,
      rfl, rfl, rfl, rfl, rfl, rfl, rfl, rfl, rfl, rfl, rfl, rfl⟩
  | some e =>
    by_cases h : (now - e.timestamp) / 1000 > 60
    · rw [animateFlight_stale cache now f e hc h]
      exact ⟨rfl, rfl, rfl, rfl, rfl, rfl, rfl, rfl, rfl, rfl, rfl, rfl, rfl, rfl,
        rfl, rfl, rfl⟩
    · rw [animateFlight_fresh cache now f e hc h]
      exact ⟨rfl, rfl, rfl, rfl, rfl, rfl, rfl, rfl, rfl, rfl, rfl, rfl, rfl, rfl,
        rfl, rfl, rfl⟩

/-- Claim C10, witness: the no-cache-entry conjunct at a concrete flight
and the empty cache. -/
theorem claim_C10_witness :
    animateFlight cacheEmpty 0 sampleFlight = sampleFlight :=
  (claim_C10 cacheEmpty 0 sampleFlight prevState).2.1 rfl
